import Mathlib

/-!
Shallow embedding of the InfiniteLagrangeDiscord repository
(src/discord_bot.py and src/approval_console.py).

Time is modelled as natural-number seconds.  The MySQL store is modelled as
lists of rows with explicit auto-increment counters; each bot command is a
pure function from a `BotState` (the in-memory `sessions` dict plus the
store) to a new state together with the ordered list of `ctx.send` replies
(tagged by the send site in the source) and, for `share_account`, the list
of direct messages sent.  bcrypt (an external primitive) is modelled as an
opaque wrapper with equality check.
-/

/-- SESSION_DURATION = timedelta(hours=2), in seconds. -/
def SESSION_DURATION : Nat := 7200

/-- The `LoginSession` dataclass of discord_bot.py. -/
structure LoginSession where
  username : String
  expires_at : Nat
deriving DecidableEq

/-- The process-local `sessions: dict[int, LoginSession]`, as an association
list keyed by the Discord actor id. -/
abbrev SessionMap := List (Nat × LoginSession)

/-- Python `sessions.get(user_id)`: first binding for the key. -/
def SessionMap.find : SessionMap → Nat → Option LoginSession
  | [], _ => none
  | (k, v) :: rest, key => if k == key then some v else SessionMap.find rest key

/-- Python `sessions.pop(user_id, None)`: remove any binding for the key. -/
def SessionMap.erase (m : SessionMap) (k : Nat) : SessionMap :=
  m.filter (fun p => p.1 != k)

/-- Python `sessions[user_id] = s`: overwrite the binding for the key. -/
def SessionMap.insert (m : SessionMap) (k : Nat) (v : LoginSession) : SessionMap :=
  (k, v) :: SessionMap.erase m k

/-- bcrypt hashes, treated as an opaque one-way wrapper (the SecretHasher
external of the spec). -/
structure Hashed where
  val : String
deriving DecidableEq

/-- `hash_secret` of discord_bot.py (bcrypt.hashpw, modelled opaquely). -/
def hash_secret (value : String) : Hashed := ⟨value⟩

/-- `verify_secret` of discord_bot.py (bcrypt.checkpw, modelled opaquely). -/
def verify_secret (value : String) (hashed : Hashed) : Bool :=
  hash_secret value == hashed

/-- A row of the `users` table. -/
structure UserRow where
  username : String
  passhash : Hashed
deriving DecidableEq

/-- A row of the `pending_users` table (created_at is the list position). -/
structure PendingUser where
  id : Nat
  username : String
  passhash : Hashed
  requested_by : String
deriving DecidableEq

/-- A row of the `game_accounts` table. -/
structure GameAccount where
  id : Nat
  uploader_username : String
  game : String
  game_username_hash : Hashed
  game_password_hash : Hashed
deriving DecidableEq

/-- A row of the `pending_game_accounts` table. -/
structure PendingGameAccount where
  id : Nat
  uploader_username : String
  game : String
  game_username_hash : Hashed
  game_password_hash : Hashed
deriving DecidableEq

/-- A row of the `access_requests` table. -/
structure AccessRequest where
  id : Nat
  account_id : Nat
  username : String
  requested_by : String
deriving DecidableEq

/-- A row of the `access_grants` table. -/
structure AccessGrant where
  account_id : Nat
  username : String
  granted_by : String
deriving DecidableEq

/-- The MySQL database, with auto-increment counters for the ids the code
reads back or deletes by. -/
structure Store where
  users : List UserRow
  pending_users : List PendingUser
  game_accounts : List GameAccount
  pending_game_accounts : List PendingGameAccount
  access_requests : List AccessRequest
  access_grants : List AccessGrant
  next_pending_user_id : Nat
  next_pending_account_id : Nat
  next_account_id : Nat
  next_request_id : Nat
deriving DecidableEq

/-- Whole-process state of the bot: the in-memory session dict plus the
database. -/
structure BotState where
  sessions : SessionMap
  store : Store
deriving DecidableEq

/-- One tag per `ctx.send` site in discord_bot.py, in source order. -/
inductive Reply where
  | registrationSubmitted
  | dupUser
  | dupPending
  | noApprovedAccount
  | invalidCredentials
  | loginOk
  | loggedOut
  | authError
  | uploadSubmitted
  | noSharedAccounts
  | sharedAccounts (rows : List (Nat × String))
  | validationEmpty
  | ownershipError
  | userNotRegistered (username : String)
  | requestsSent
  | noRequest
  | accessConfirmed
  | noGrant
  | recipientNotFound
  | sharedViaDM
  | noPendingAccess
  | pendingList (ids : List Nat)
deriving DecidableEq

/-- A `recipient.send(...)` direct message carrying the disclosed secret. -/
structure DM where
  recipient : String
  game : String
  from_user : String
  game_username : String
  game_password : String
deriving DecidableEq

/-- `is_logged_in` of discord_bot.py.  Returns the session (if present and
not expired) together with the possibly-mutated session dict: an entry with
`expires_at < now` is popped (lazy expiry). -/
def is_logged_in (sessions : SessionMap) (now : Nat) (user_id : Nat) :
    Option LoginSession × SessionMap :=
  match SessionMap.find sessions user_id with
  | none => (none, sessions)
  | some session =>
    if session.expires_at < now then (none, SessionMap.erase sessions user_id)
    else (some session, sessions)

/-- `fetch_user` of discord_bot.py. -/
def fetch_user (store : Store) (username : String) : Option UserRow :=
  store.users.find? (fun u => u.username == username)

/-- The `register` command. -/
def register (st : BotState) (actor : Nat) (username password : String) :
    BotState × List Reply :=
  if st.store.users.any (fun u => u.username == username) then
    (st, [Reply.dupUser])
  else if st.store.pending_users.any (fun p => p.username == username) then
    (st, [Reply.dupPending])
  else
    let store := st.store
    let store := { store with
      pending_users := store.pending_users ++
        [⟨store.next_pending_user_id, username, hash_secret password, toString actor⟩],
      next_pending_user_id := store.next_pending_user_id + 1 }
    ({ st with store := store }, [Reply.registrationSubmitted])

/-- The `login` command. -/
def login (st : BotState) (now : Nat) (actor : Nat) (username password : String) :
    BotState × List Reply :=
  match fetch_user st.store username with
  | none => (st, [Reply.noApprovedAccount])
  | some user =>
    if verify_secret password user.passhash then
      ({ st with sessions :=
          SessionMap.insert st.sessions actor ⟨username, now + SESSION_DURATION⟩ },
        [Reply.loginOk])
    else (st, [Reply.invalidCredentials])

/-- The `logout` command. -/
def logout (st : BotState) (actor : Nat) : BotState × List Reply :=
  ({ st with sessions := SessionMap.erase st.sessions actor }, [Reply.loggedOut])

/-- The `upload_account` command. -/
def upload_account (st : BotState) (now : Nat) (actor : Nat)
    (game game_username game_password : String) : BotState × List Reply :=
  match is_logged_in st.sessions now actor with
  | (none, sess) => ({ st with sessions := sess }, [Reply.authError])
  | (some session, sess) =>
    let store := st.store
    let store := { store with
      pending_game_accounts := store.pending_game_accounts ++
        [⟨store.next_pending_account_id, session.username, game,
          hash_secret game_username, hash_secret game_password⟩],
      next_pending_account_id := store.next_pending_account_id + 1 }
    ({ st with sessions := sess, store := store }, [Reply.uploadSubmitted])

/-- The `list_accounts` command (join of access_grants with game_accounts on
the grantee's username). -/
def list_accounts (st : BotState) (now : Nat) (actor : Nat) :
    BotState × List Reply :=
  match is_logged_in st.sessions now actor with
  | (none, sess) => ({ st with sessions := sess }, [Reply.authError])
  | (some session, sess) =>
    let st := { st with sessions := sess }
    let rows := st.store.access_grants.filterMap (fun g =>
      if g.username == session.username then
        (st.store.game_accounts.find? (fun a => a.id == g.account_id)).map
          (fun a => (a.id, a.game))
      else none)
    if rows.isEmpty then (st, [Reply.noSharedAccounts])
    else (st, [Reply.sharedAccounts rows])

/-- The `grant_access` command.  Note the source inserts a fresh
access_requests row for every registered grantee without checking for an
existing row for the pair. -/
def grant_access (st : BotState) (now : Nat) (actor : Nat) (account_id : Nat)
    (usernames : List String) : BotState × List Reply :=
  match is_logged_in st.sessions now actor with
  | (none, sess) => ({ st with sessions := sess }, [Reply.authError])
  | (some session, sess) =>
    let st := { st with sessions := sess }
    if usernames.isEmpty then (st, [Reply.validationEmpty])
    else if (st.store.game_accounts.find? (fun a =>
        a.id == account_id && a.uploader_username == session.username)).isNone then
      (st, [Reply.ownershipError])
    else
      let step := fun (acc : Store × List Reply) (u : String) =>
        if acc.1.users.any (fun row => row.username == u) then
          ({ acc.1 with
              access_requests := acc.1.access_requests ++
                [⟨acc.1.next_request_id, account_id, u, session.username⟩],
              next_request_id := acc.1.next_request_id + 1 }, acc.2)
        else (acc.1, acc.2 ++ [Reply.userNotRegistered u])
      let res := usernames.foldl step (st.store, [])
      ({ st with store := res.1 }, res.2 ++ [Reply.requestsSent])

/-- The `confirm_access` command: finds the first access_requests row for
(account_id, caller's username), inserts an access_grants row with
granted_by = that row's requested_by, and deletes the row by its id. -/
def confirm_access (st : BotState) (now : Nat) (actor : Nat) (account_id : Nat) :
    BotState × List Reply :=
  match is_logged_in st.sessions now actor with
  | (none, sess) => ({ st with sessions := sess }, [Reply.authError])
  | (some session, sess) =>
    let st := { st with sessions := sess }
    match st.store.access_requests.find? (fun r =>
        r.account_id == account_id && r.username == session.username) with
    | none => (st, [Reply.noRequest])
    | some row =>
      let store := st.store
      let store := { store with
        access_grants := store.access_grants ++
          [⟨account_id, session.username, row.requested_by⟩],
        access_requests := store.access_requests.filter (fun r => r.id != row.id) }
      ({ st with store := store }, [Reply.accessConfirmed])

/-- Result of `share_account`: new state, replies, and direct messages. -/
structure ShareResult where
  state : BotState
  replies : List Reply
  dms : List DM
deriving DecidableEq

/-- The `share_account` command.  `guild` is the list of member names of the
current guild (`ctx.guild.members`); the caller-supplied plaintext secrets
are forwarded verbatim in the DM without consulting the stored hashes. -/
def share_account (guild : List String) (st : BotState) (now : Nat) (actor : Nat)
    (account_id : Nat) (target_username game_username game_password : String) :
    ShareResult :=
  match is_logged_in st.sessions now actor with
  | (none, sess) => ⟨{ st with sessions := sess }, [Reply.authError], []⟩
  | (some session, sess) =>
    let st := { st with sessions := sess }
    match st.store.game_accounts.find? (fun a =>
        a.id == account_id && a.uploader_username == session.username) with
    | none => ⟨st, [Reply.ownershipError], []⟩
    | some account =>
      if !(st.store.access_grants.any (fun g =>
          g.account_id == account_id && g.username == target_username)) then
        ⟨st, [Reply.noGrant], []⟩
      else if !(guild.contains target_username) then
        ⟨st, [Reply.recipientNotFound], []⟩
      else
        ⟨st, [Reply.sharedViaDM],
          [⟨target_username, account.game, session.username,
            game_username, game_password⟩]⟩

/-- The `pending_access` command. -/
def pending_access (st : BotState) (now : Nat) (actor : Nat) :
    BotState × List Reply :=
  match is_logged_in st.sessions now actor with
  | (none, sess) => ({ st with sessions := sess }, [Reply.authError])
  | (some session, sess) =>
    let st := { st with sessions := sess }
    let ids := st.store.access_requests.filterMap (fun r =>
      if r.username == session.username then some r.account_id else none)
    if ids.isEmpty then (st, [Reply.noPendingAccess])
    else (st, [Reply.pendingList ids])

/-- `approve_pending_users` of approval_console.py, with the operator's two
id lists as inputs.  Python's `if approve_ids:` truthiness is the non-empty
test; the DELETE of an already-deleted id is a no-op. -/
def approve_pending_users (store : Store) (approve_ids reject_ids : List Nat) :
    Store :=
  if store.pending_users.isEmpty then store
  else
    let store :=
      if approve_ids.isEmpty then store
      else
        let promoted := store.pending_users.filter (fun p => approve_ids.contains p.id)
        { store with
          users := store.users ++ promoted.map (fun p => ⟨p.username, p.passhash⟩),
          pending_users :=
            store.pending_users.filter (fun p => !(approve_ids.contains p.id)) }
    if reject_ids.isEmpty then store
    else
      { store with
        pending_users :=
          store.pending_users.filter (fun p => !(reject_ids.contains p.id)) }

/-- `approve_pending_accounts` of approval_console.py; promotion assigns
fresh game_accounts ids from the auto-increment counter. -/
def approve_pending_accounts (store : Store) (approve_ids reject_ids : List Nat) :
    Store :=
  if store.pending_game_accounts.isEmpty then store
  else
    let store :=
      if approve_ids.isEmpty then store
      else
        let promoted :=
          store.pending_game_accounts.filter (fun p => approve_ids.contains p.id)
        let step := fun (acc : List GameAccount × Nat) (p : PendingGameAccount) =>
          (acc.1 ++ [⟨acc.2, p.uploader_username, p.game,
              p.game_username_hash, p.game_password_hash⟩], acc.2 + 1)
        let res := promoted.foldl step (store.game_accounts, store.next_account_id)
        { store with
          game_accounts := res.1,
          next_account_id := res.2,
          pending_game_accounts :=
            store.pending_game_accounts.filter (fun p => !(approve_ids.contains p.id)) }
    if reject_ids.isEmpty then store
    else
      { store with
        pending_game_accounts :=
          store.pending_game_accounts.filter (fun p => !(reject_ids.contains p.id)) }

/-- The uniqueness invariant of the spec: no two pending or active rows share
a username. -/
def distinct_usernames (store : Store) : Prop :=
  ((store.users.map (fun u => u.username)) ++
    (store.pending_users.map (fun p => p.username))).Nodup

/-! ### Helper lemmas about the session map -/

/-- Erasing a key removes every binding for it. -/
theorem SessionMap.find_erase_self (m : SessionMap) (k : Nat) :
    SessionMap.find (SessionMap.erase m k) k = none := by
  induction m with
  | nil => rfl
  | cons hd tl ih =>
    by_cases h : hd.1 = k
    · simpa [SessionMap.erase, List.filter_cons, h] using ih
    · simpa [SessionMap.erase, List.filter_cons, h, SessionMap.find] using ih

/-- A binding surviving an erase was already in the map. -/
theorem SessionMap.find_erase_some (m : SessionMap) (k a : Nat) (s : LoginSession)
    (h : SessionMap.find (SessionMap.erase m k) a = some s) :
    SessionMap.find m a = some s := by
  induction m with
  | nil => exact h
  | cons hd tl ih =>
    by_cases hk : hd.1 = k
    · rw [SessionMap.erase, List.filter_cons] at h
      simp only [hk, bne_self_eq_false] at h
      by_cases ha : hd.1 = a
      · exfalso
        have : SessionMap.find (SessionMap.erase tl k) a = some s := h
        rw [ha] at hk
        rw [← hk] at this
        rw [SessionMap.find_erase_self] at this
        exact Option.noConfusion this
      · rw [SessionMap.find]
        have : (hd.1 == a) = false := by simp [ha]
        rw [this]
        simp only [Bool.false_eq_true, if_false]
        exact ih h
    · rw [SessionMap.erase, List.filter_cons] at h
      have hbne : (hd.1 != k) = true := by simp [hk]
      rw [hbne] at h
      simp only [if_true] at h
      rw [SessionMap.find] at h ⊢
      by_cases ha : hd.1 = a
      · simpa [ha] using h
      · have : (hd.1 == a) = false := by simp [ha]
        rw [this] at h ⊢
        simp only [Bool.false_eq_true, if_false] at h ⊢
        exact ih h

/-- Any binding found in the session map returned by `is_logged_in` was
already in the input map, unchanged. -/
theorem is_logged_in_find_sub (sessions : SessionMap) (now id a : Nat)
    (s : LoginSession)
    (h : SessionMap.find (is_logged_in sessions now id).2 a = some s) :
    SessionMap.find sessions a = some s := by
  unfold is_logged_in at h
  cases hf : SessionMap.find sessions id with
  | none => rw [hf] at h; exact h
  | some t =>
    rw [hf] at h
    by_cases he : t.expires_at < now
    · simp only [he, if_true] at h
      exact SessionMap.find_erase_some _ _ _ _ h
    · simp only [he, if_false] at h
      exact h

/-- When `is_logged_in` succeeds, the session map is untouched, the entry is
the stored one, and it has not expired; a repeated call gives the same
answer. -/
theorem is_logged_in_some_stable (sessions : SessionMap) (now id : Nat)
    (x : LoginSession) (m : SessionMap)
    (h : is_logged_in sessions now id = (some x, m)) :
    m = sessions ∧ SessionMap.find sessions id = some x ∧
      ¬ x.expires_at < now := by
  unfold is_logged_in at h
  cases hf : SessionMap.find sessions id with
  | none =>
    rw [hf] at h
    simp at h
  | some t =>
    rw [hf] at h
    by_cases he : t.expires_at < now
    · simp [he] at h
    · simp only [he, if_false] at h
      have h1 : some t = some x := congrArg Prod.fst h
      have h2 : sessions = m := congrArg Prod.snd h
      have h3 : t = x := Option.some.inj h1
      subst h3
      exact ⟨h2.symm, rfl, he⟩

/-! ### C7: lazy session expiry in `is_logged_in` -/

/-- C7 (amended): `is_logged_in` returns the stored session exactly when one
is present and its expiry is greater than **or equal to** the current time
(the source tests `expires_at < now`, so at `expires_at = now` the session
is still returned).  Only when the expiry is strictly less than now does the
call return absent and evict the entry, and repeating the call then returns
absent again with the map unchanged (lazy expiry, idempotent on repeat
calls). -/
theorem c7_active_session_lazy_expiry (sessions : SessionMap) (now id : Nat) :
    (∀ s, SessionMap.find sessions id = some s → ¬ s.expires_at < now →
      is_logged_in sessions now id = (some s, sessions)) ∧
    (∀ s, SessionMap.find sessions id = some s → s.expires_at < now →
      is_logged_in sessions now id = (none, SessionMap.erase sessions id) ∧
      is_logged_in (SessionMap.erase sessions id) now id =
        (none, SessionMap.erase sessions id)) ∧
    (SessionMap.find sessions id = none →
      is_logged_in sessions now id = (none, sessions)) := by
  refine ⟨?_, ?_, ?_⟩
  · intro s hs hlt
    unfold is_logged_in
    rw [hs]
    simp [hlt]
  · intro s hs hlt
    refine ⟨?_, ?_⟩
    · unfold is_logged_in
      rw [hs]
      simp [hlt]
    · unfold is_logged_in
      rw [SessionMap.find_erase_self]
  · intro h
    unfold is_logged_in
    rw [h]

/-- C7 counterexample: a stored session whose expiry equals the current time
is **not** strictly in the future, yet `is_logged_in` returns it and does not
evict it — refuting the claim that the session is returned only when
`expiry > now` and that a non-future expiry is evicted. -/
theorem c7_expiry_boundary_counterexample :
    ¬ (5 : Nat) < 5 ∧
      is_logged_in [(1, ⟨"alice", 5⟩)] 5 1 =
        (some ⟨"alice", 5⟩, [(1, ⟨"alice", 5⟩)]) := by
  exact ⟨by decide, rfl⟩

/-- C7 witness: the amended theorem applied at concrete inputs covering the
live, expired and absent branches. -/
theorem c7_active_session_lazy_expiry_witness :
    (is_logged_in [(1, ⟨"alice", 5⟩)] 3 1 =
      (some ⟨"alice", 5⟩, [(1, ⟨"alice", 5⟩)])) ∧
    (is_logged_in [(1, ⟨"alice", 5⟩)] 9 1 =
        (none, SessionMap.erase [(1, ⟨"alice", 5⟩)] 1) ∧
      is_logged_in (SessionMap.erase [(1, ⟨"alice", 5⟩)] 1) 9 1 =
        (none, SessionMap.erase [(1, ⟨"alice", 5⟩)] 1)) ∧
    (is_logged_in [] 9 1 = (none, [])) :=
  ⟨(c7_active_session_lazy_expiry [(1, ⟨"alice", 5⟩)] 3 1).1 ⟨"alice", 5⟩ rfl
      (by decide),
    (c7_active_session_lazy_expiry [(1, ⟨"alice", 5⟩)] 9 1).2.1 ⟨"alice", 5⟩ rfl
      (by decide),
    (c7_active_session_lazy_expiry [] 9 1).2.2 rfl⟩

/-! ### C6: the session check short-circuits every protected command -/

/-- An empty database, used as a concrete fixture. -/
def emptyStore : Store := ⟨[], [], [], [], [], [], 0, 0, 0, 0⟩

/-- C6: for every protected operation (upload_account, list_accounts,
grant_access, confirm_access, share_account, pending_access), when the
caller's session is absent or expired (`is_logged_in` yields none), the call
returns exactly the auth-error reply, the store is unchanged, and no direct
message is sent; only the lazy-expiry eviction inside `is_logged_in` itself
touches the session map. -/
theorem c6_auth_gate_short_circuit (guild : List String) (st : BotState)
    (now actor account_id : Nat) (m : SessionMap)
    (game game_username game_password target : String) (usernames : List String)
    (h : is_logged_in st.sessions now actor = (none, m)) :
    upload_account st now actor game game_username game_password =
      ({ st with sessions := m }, [Reply.authError]) ∧
    list_accounts st now actor = ({ st with sessions := m }, [Reply.authError]) ∧
    grant_access st now actor account_id usernames =
      ({ st with sessions := m }, [Reply.authError]) ∧
    confirm_access st now actor account_id =
      ({ st with sessions := m }, [Reply.authError]) ∧
    share_account guild st now actor account_id target game_username
        game_password =
      ⟨{ st with sessions := m }, [Reply.authError], []⟩ ∧
    pending_access st now actor = ({ st with sessions := m }, [Reply.authError]) := by
  refine ⟨?_, ?_, ?_, ?_, ?_, ?_⟩ <;>
    simp [upload_account, list_accounts, grant_access, confirm_access,
      share_account, pending_access, h]

/-- C6 witness: the theorem applied to a caller with no session at all over
the empty store. -/
theorem c6_auth_gate_short_circuit_witness :
    upload_account ⟨[], emptyStore⟩ 0 1 "wow" "u" "p" =
      (⟨[], emptyStore⟩, [Reply.authError]) ∧
    list_accounts ⟨[], emptyStore⟩ 0 1 = (⟨[], emptyStore⟩, [Reply.authError]) ∧
    grant_access ⟨[], emptyStore⟩ 0 1 1 ["bob"] =
      (⟨[], emptyStore⟩, [Reply.authError]) ∧
    confirm_access ⟨[], emptyStore⟩ 0 1 1 =
      (⟨[], emptyStore⟩, [Reply.authError]) ∧
    share_account ["bob"] ⟨[], emptyStore⟩ 0 1 1 "bob" "u" "p" =
      ⟨⟨[], emptyStore⟩, [Reply.authError], []⟩ ∧
    pending_access ⟨[], emptyStore⟩ 0 1 = (⟨[], emptyStore⟩, [Reply.authError]) :=
  c6_auth_gate_short_circuit ["bob"] ⟨[], emptyStore⟩ 0 1 1 [] "wow" "u" "p"
    "bob" ["bob"] rfl

/-! ### Session-map behaviour of the remaining commands -/

/-- Inserting a binding makes it the one found for that key. -/
theorem SessionMap.find_insert_self (m : SessionMap) (k : Nat) (v : LoginSession) :
    SessionMap.find (SessionMap.insert m k v) k = some v := by
  unfold SessionMap.insert SessionMap.find
  simp

/-- Erasing a key twice is the same as erasing it once. -/
theorem SessionMap.erase_erase (m : SessionMap) (k : Nat) :
    SessionMap.erase (SessionMap.erase m k) k = SessionMap.erase m k := by
  unfold SessionMap.erase
  rw [List.filter_filter]
  simp

/-- `register` never touches the session map. -/
theorem register_sessions_eq (st : BotState) (actor : Nat) (u p : String) :
    (register st actor u p).1.sessions = st.sessions := by
  unfold register
  split
  · rfl
  split
  · rfl
  · rfl

/-- `upload_account` leaves the session map exactly as `is_logged_in` did. -/
theorem upload_account_sessions_eq (st : BotState) (now actor : Nat)
    (g gu gp : String) :
    (upload_account st now actor g gu gp).1.sessions =
      (is_logged_in st.sessions now actor).2 := by
  unfold upload_account
  rcases h : is_logged_in st.sessions now actor with ⟨o, sess⟩
  cases o
  · rfl
  · rfl

/-- `list_accounts` leaves the session map exactly as `is_logged_in` did. -/
theorem list_accounts_sessions_eq (st : BotState) (now actor : Nat) :
    (list_accounts st now actor).1.sessions =
      (is_logged_in st.sessions now actor).2 := by
  unfold list_accounts
  rcases h : is_logged_in st.sessions now actor with ⟨o, sess⟩
  cases o
  · rfl
  · simp only []
    split
    · rfl
    · rfl

/-- `grant_access` leaves the session map exactly as `is_logged_in` did. -/
theorem grant_access_sessions_eq (st : BotState) (now actor account_id : Nat)
    (usernames : List String) :
    (grant_access st now actor account_id usernames).1.sessions =
      (is_logged_in st.sessions now actor).2 := by
  unfold grant_access
  rcases h : is_logged_in st.sessions now actor with ⟨o, sess⟩
  cases o
  · rfl
  · simp only []
    split
    · rfl
    split
    · rfl
    · rfl

/-- `confirm_access` leaves the session map exactly as `is_logged_in` did. -/
theorem confirm_access_sessions_eq (st : BotState) (now actor account_id : Nat) :
    (confirm_access st now actor account_id).1.sessions =
      (is_logged_in st.sessions now actor).2 := by
  unfold confirm_access
  rcases h : is_logged_in st.sessions now actor with ⟨o, sess⟩
  cases o
  · rfl
  · simp only []
    split
    · rfl
    · rfl

/-- `share_account` leaves the session map exactly as `is_logged_in` did. -/
theorem share_account_sessions_eq (guild : List String) (st : BotState)
    (now actor account_id : Nat) (target gu gp : String) :
    (share_account guild st now actor account_id target gu gp).state.sessions =
      (is_logged_in st.sessions now actor).2 := by
  unfold share_account
  rcases h : is_logged_in st.sessions now actor with ⟨o, sess⟩
  cases o
  · rfl
  · simp only []
    split
    · rfl
    · split
      · rfl
      · split
        · rfl
        · rfl

/-- `pending_access` leaves the session map exactly as `is_logged_in` did. -/
theorem pending_access_sessions_eq (st : BotState) (now actor : Nat) :
    (pending_access st now actor).1.sessions =
      (is_logged_in st.sessions now actor).2 := by
  unfold pending_access
  rcases h : is_logged_in st.sessions now actor with ⟨o, sess⟩
  cases o
  · rfl
  · simp only []
    split
    · rfl
    · rfl

/-! ### C8: fixed session expiry, unconditional idempotent logout -/

/-- C8: a successful `login` stores a session for the caller whose expiry is
exactly the login instant plus 2 hours (7200 s); every other operation
either leaves a stored session binding exactly as it was (same expiry) or
removes it — none rewrites an expiry (no sliding expiration); `logout`
unconditionally removes the caller's session, leaves other bindings intact,
and is idempotent. -/
theorem c8_fixed_expiry_no_sliding (guild : List String) (st : BotState)
    (now actor a account_id : Nat) (username password g gu gp target : String)
    (usernames : List String) (s : LoginSession) (user : UserRow) :
    (fetch_user st.store username = some user →
      verify_secret password user.passhash = true →
      SessionMap.find (login st now actor username password).1.sessions actor =
        some ⟨username, now + SESSION_DURATION⟩) ∧
    (SessionMap.find (register st actor username password).1.sessions a = some s →
      SessionMap.find st.sessions a = some s) ∧
    (SessionMap.find (upload_account st now actor g gu gp).1.sessions a = some s →
      SessionMap.find st.sessions a = some s) ∧
    (SessionMap.find (list_accounts st now actor).1.sessions a = some s →
      SessionMap.find st.sessions a = some s) ∧
    (SessionMap.find (grant_access st now actor account_id usernames).1.sessions a =
        some s →
      SessionMap.find st.sessions a = some s) ∧
    (SessionMap.find (confirm_access st now actor account_id).1.sessions a = some s →
      SessionMap.find st.sessions a = some s) ∧
    (SessionMap.find
        (share_account guild st now actor account_id target gu gp).state.sessions a =
        some s →
      SessionMap.find st.sessions a = some s) ∧
    (SessionMap.find (pending_access st now actor).1.sessions a = some s →
      SessionMap.find st.sessions a = some s) ∧
    (SessionMap.find (logout st actor).1.sessions a = some s →
      SessionMap.find st.sessions a = some s) ∧
    (SessionMap.find (logout st actor).1.sessions actor = none) ∧
    ((logout (logout st actor).1 actor).1 = (logout st actor).1) := by
  refine ⟨?_, ?_, ?_, ?_, ?_, ?_, ?_, ?_, ?_, ?_, ?_⟩
  · intro hfetch hverify
    unfold login
    rw [hfetch]
    simp only [hverify, if_true]
    exact SessionMap.find_insert_self _ _ _
  · intro hfind
    rw [register_sessions_eq] at hfind
    exact hfind
  · intro hfind
    rw [upload_account_sessions_eq] at hfind
    exact is_logged_in_find_sub _ _ _ _ _ hfind
  · intro hfind
    rw [list_accounts_sessions_eq] at hfind
    exact is_logged_in_find_sub _ _ _ _ _ hfind
  · intro hfind
    rw [grant_access_sessions_eq] at hfind
    exact is_logged_in_find_sub _ _ _ _ _ hfind
  · intro hfind
    rw [confirm_access_sessions_eq] at hfind
    exact is_logged_in_find_sub _ _ _ _ _ hfind
  · intro hfind
    rw [share_account_sessions_eq] at hfind
    exact is_logged_in_find_sub _ _ _ _ _ hfind
  · intro hfind
    rw [pending_access_sessions_eq] at hfind
    exact is_logged_in_find_sub _ _ _ _ _ hfind
  · intro hfind
    exact SessionMap.find_erase_some _ _ _ _ hfind
  · exact SessionMap.find_erase_self _ _
  · simp [logout, SessionMap.erase_erase]

/-- C8 witness: the theorem applied at a concrete state holding one live
session, exercising each implication. -/
theorem c8_fixed_expiry_no_sliding_witness :
    (SessionMap.find
        (login ⟨[], { emptyStore with users := [⟨"alice", hash_secret "pw"⟩] }⟩
          100 1 "alice" "pw").1.sessions 1 = some ⟨"alice", 100 + SESSION_DURATION⟩) ∧
    (SessionMap.find [(2, ⟨"bob", 50⟩)] 2 = some ⟨"bob", 50⟩) ∧
    (SessionMap.find (logout ⟨[(2, ⟨"bob", 50⟩)], emptyStore⟩ 2).1.sessions 2 = none) ∧
    ((logout (logout ⟨[(2, ⟨"bob", 50⟩)], emptyStore⟩ 2).1 2).1 =
      (logout ⟨[(2, ⟨"bob", 50⟩)], emptyStore⟩ 2).1) := by
  have h1 := c8_fixed_expiry_no_sliding [] ⟨[],
    { emptyStore with users := [⟨"alice", hash_secret "pw"⟩] }⟩ 100 1 1 1 "alice"
    "pw" "g" "gu" "gp" "t" [] ⟨"alice", 100 + SESSION_DURATION⟩
    ⟨"alice", hash_secret "pw"⟩
  have h2 := c8_fixed_expiry_no_sliding [] ⟨[(2, ⟨"bob", 50⟩)], emptyStore⟩ 40 2 2
    1 "u" "p" "g" "gu" "gp" "t" [] ⟨"bob", 50⟩ ⟨"alice", hash_secret "pw"⟩
  refine ⟨h1.1 rfl rfl, ?_, h2.2.2.2.2.2.2.2.2.2.1, h2.2.2.2.2.2.2.2.2.2.2⟩
  exact h2.2.2.1 (by decide) -- upload_account preserves the binding for actor 2

/-! ### C5: grant_access validation and ownership failures -/

/-- C5: with an active session, `grant_access` called with an empty grantee
list fails with the validation-error reply and leaves the store unchanged;
called with a non-empty grantee list on a credential id that does not exist
or is not owned by the session's identity it fails with the ownership-error
reply and also leaves the store unchanged (zero Requested rows created in
both cases). -/
theorem c5_grant_access_error_paths (st : BotState) (now actor account_id : Nat)
    (session : LoginSession) (m : SessionMap) (usernames : List String)
    (hlog : is_logged_in st.sessions now actor = (some session, m)) :
    (grant_access st now actor account_id [] =
      ({ st with sessions := m }, [Reply.validationEmpty])) ∧
    (usernames ≠ [] →
      st.store.game_accounts.find? (fun a =>
          a.id == account_id && a.uploader_username == session.username) = none →
      grant_access st now actor account_id usernames =
        ({ st with sessions := m }, [Reply.ownershipError])) := by
  constructor
  · simp [grant_access, hlog]
  · intro hne hnone
    cases usernames with
    | nil => exact absurd rfl hne
    | cons u us => simp [grant_access, hlog, hnone]

/-- C5 witness: an owner-less store, so the ownership lookup fails; and the
empty grantee list. -/
theorem c5_grant_access_error_paths_witness :
    (grant_access ⟨[(1, ⟨"alice", 10⟩)], emptyStore⟩ 0 1 7 [] =
      (⟨[(1, ⟨"alice", 10⟩)], emptyStore⟩, [Reply.validationEmpty])) ∧
    (grant_access ⟨[(1, ⟨"alice", 10⟩)], emptyStore⟩ 0 1 7 ["bob"] =
      (⟨[(1, ⟨"alice", 10⟩)], emptyStore⟩, [Reply.ownershipError])) := by
  have h := c5_grant_access_error_paths ⟨[(1, ⟨"alice", 10⟩)], emptyStore⟩ 0 1 7
    ⟨"alice", 10⟩ [(1, ⟨"alice", 10⟩)] ["bob"] rfl
  exact ⟨h.1, h.2 (by decide) rfl⟩

/-! ### C4: grant_access is not idempotent per grantee -/

/-- Fixture: alice owns game account 1 and an access request for
(1, "bob") already exists. -/
def c4Store : Store :=
  { emptyStore with
    users := [⟨"alice", hash_secret "a"⟩, ⟨"bob", hash_secret "b"⟩],
    game_accounts := [⟨1, "alice", "wow", hash_secret "gu", hash_secret "gp"⟩],
    access_requests := [⟨0, 1, "bob", "alice"⟩],
    next_request_id := 1 }

/-- Fixture: alice (actor 1) is logged in over `c4Store`. -/
def c4State : BotState := ⟨[(1, ⟨"alice", 10⟩)], c4Store⟩

/-- C4 counterexample: an AccessRequest row for (credential 1, "bob") already
exists, yet `grant_access` inserts a second one — after the call two live
rows exist for the pair, refuting the claimed idempotent skip and the
at-most-one-row invariant. -/
theorem c4_duplicate_request_counterexample :
    (c4State.store.access_requests.filter
      (fun r => r.account_id == 1 && r.username == "bob")).length = 1 ∧
    ((grant_access c4State 0 1 1 ["bob"]).1.store.access_requests.filter
      (fun r => r.account_id == 1 && r.username == "bob")).length = 2 := by
  decide

/-- C4 (amended): `grant_access` performs no existing-request check: for a
logged-in owner and a registered grantee it unconditionally appends a fresh
AccessRequest row for the pair — even when one already exists — so duplicate
live rows per (credential id, grantee username) pair are reachable. -/
theorem c4_grant_access_appends_unconditionally (st : BotState)
    (now actor account_id : Nat) (session : LoginSession) (m : SessionMap)
    (ga : GameAccount) (u : String)
    (hlog : is_logged_in st.sessions now actor = (some session, m))
    (hacc : st.store.game_accounts.find? (fun a =>
        a.id == account_id && a.uploader_username == session.username) = some ga)
    (hu : st.store.users.any (fun row => row.username == u) = true) :
    grant_access st now actor account_id [u] =
      ({ st with
          sessions := m,
          store := { st.store with
            access_requests := st.store.access_requests ++
              [⟨st.store.next_request_id, account_id, u, session.username⟩],
            next_request_id := st.store.next_request_id + 1 } },
        [Reply.requestsSent]) := by
  have hex : ∃ x ∈ st.store.users, x.username = u := by
    simpa using hu
  simp [grant_access, hlog, hacc, hex]

/-- C4 witness: the amended theorem applied to the fixture where a request
for the pair already exists. -/
theorem c4_grant_access_appends_unconditionally_witness :
    grant_access c4State 0 1 1 ["bob"] =
      ({ c4State with
          store := { c4State.store with
            access_requests := c4State.store.access_requests ++
              [⟨c4State.store.next_request_id, 1, "bob", "alice"⟩],
            next_request_id := c4State.store.next_request_id + 1 } },
        [Reply.requestsSent]) :=
  c4_grant_access_appends_unconditionally c4State 0 1 1 ⟨"alice", 10⟩
    [(1, ⟨"alice", 10⟩)] ⟨1, "alice", "wow", hash_secret "gu", hash_secret "gp"⟩
    "bob" rfl (by decide) (by decide)

/-! ### C1: confirm_access consumes the request exactly once -/

/-- If filtering keeps exactly one element, `find?` returns that element. -/
theorem find_first_of_filter_singleton {α : Type} (p : α → Bool) :
    ∀ (l : List α) (x : α), l.filter p = [x] → l.find? p = some x := by
  intro l
  induction l with
  | nil =>
    intro x h
    exact absurd h (by simp)
  | cons a tl ih =>
    intro x h
    by_cases hp : p a
    · rw [List.filter_cons_of_pos hp] at h
      injection h with h1 h2
      rw [List.find?_cons_of_pos _ hp, h1]
    · rw [List.filter_cons_of_neg (by simpa using hp)] at h
      rw [List.find?_cons_of_neg _ (by simpa using hp)]
      exact ih x h

/-- C1: when the caller is logged in and exactly one Requested row exists for
(credential_id, caller's identity) — and request ids are unambiguous —
`confirm_access` atomically deletes that row and inserts a Granted row
recording who originally requested it; the consumed row is gone, and a
second `confirm_access` for the same pair fails with the not-found reply
while leaving the whole state unchanged. -/
theorem c1_confirm_access_exactly_once (st : BotState)
    (now actor account_id : Nat) (session : LoginSession) (m : SessionMap)
    (req : AccessRequest)
    (hlog : is_logged_in st.sessions now actor = (some session, m))
    (hreq : st.store.access_requests.filter (fun r =>
        r.account_id == account_id && r.username == session.username) = [req])
    (hid : ∀ r ∈ st.store.access_requests, r.id = req.id → r = req) :
    confirm_access st now actor account_id =
      ({ st with
          sessions := m,
          store := { st.store with
            access_grants := st.store.access_grants ++
              [⟨account_id, session.username, req.requested_by⟩],
            access_requests := st.store.access_requests.filter
              (fun r => r.id != req.id) } },
        [Reply.accessConfirmed]) ∧
    req ∉ (confirm_access st now actor account_id).1.store.access_requests ∧
    confirm_access (confirm_access st now actor account_id).1 now actor
        account_id =
      ((confirm_access st now actor account_id).1, [Reply.noRequest]) := by
  have hm : m = st.sessions := (is_logged_in_some_stable _ _ _ _ _ hlog).1
  subst hm
  have hfind : st.store.access_requests.find? (fun r =>
      r.account_id == account_id && r.username == session.username) = some req :=
    find_first_of_filter_singleton _ _ _ hreq
  have h1 : confirm_access st now actor account_id =
      ({ st with
          sessions := st.sessions,
          store := { st.store with
            access_grants := st.store.access_grants ++
              [⟨account_id, session.username, req.requested_by⟩],
            access_requests := st.store.access_requests.filter
              (fun r => r.id != req.id) } },
        [Reply.accessConfirmed]) := by
    simp [confirm_access, hlog, hfind]
  have hnone : (st.store.access_requests.filter
      (fun r => r.id != req.id)).find? (fun r =>
        r.account_id == account_id && r.username == session.username) = none := by
    rw [List.find?_eq_none]
    intro r hr hpair
    rw [List.mem_filter] at hr
    have hrmem : r ∈ st.store.access_requests.filter (fun s =>
        s.account_id == account_id && s.username == session.username) :=
      List.mem_filter.2 ⟨hr.1, hpair⟩
    rw [hreq] at hrmem
    have : r = req := by simpa using hrmem
    subst this
    simpa using hr.2
  refine ⟨h1, ?_, ?_⟩
  · rw [h1]
    intro hmem
    have : (req.id != req.id) = true := (List.mem_filter.1 hmem).2
    simp at this
  · rw [h1]
    simp [confirm_access, hlog, hnone]

/-- Fixture: bob has one pending access request for alice's account 1. -/
def c1Store : Store :=
  { emptyStore with
    users := [⟨"alice", hash_secret "a"⟩, ⟨"bob", hash_secret "b"⟩],
    game_accounts := [⟨1, "alice", "wow", hash_secret "gu", hash_secret "gp"⟩],
    access_requests := [⟨0, 1, "bob", "alice"⟩],
    next_request_id := 1 }

/-- Fixture: bob (actor 2) is logged in over `c1Store`. -/
def c1State : BotState := ⟨[(2, ⟨"bob", 10⟩)], c1Store⟩

/-- C1 witness: bob confirms access to account 1 once (consuming the request
and creating the grant attributed to alice) and a second confirm fails with
the not-found reply, leaving the state unchanged. -/
theorem c1_confirm_access_exactly_once_witness :
    confirm_access c1State 0 2 1 =
      ({ c1State with
          sessions := [(2, ⟨"bob", 10⟩)],
          store := { c1State.store with
            access_grants := c1State.store.access_grants ++
              [⟨1, "bob", "alice"⟩],
            access_requests := c1State.store.access_requests.filter
              (fun r => r.id != 0) } },
        [Reply.accessConfirmed]) ∧
    (⟨0, 1, "bob", "alice"⟩ : AccessRequest) ∉
      (confirm_access c1State 0 2 1).1.store.access_requests ∧
    confirm_access (confirm_access c1State 0 2 1).1 0 2 1 =
      ((confirm_access c1State 0 2 1).1, [Reply.noRequest]) :=
  c1_confirm_access_exactly_once c1State 0 2 1 ⟨"bob", 10⟩ [(2, ⟨"bob", 10⟩)]
    ⟨0, 1, "bob", "alice"⟩ rfl (by decide) (by decide)

/-! ### C2 and C10: disclosure requires a Granted row and a guild member -/

/-- C2 (amended): with a logged-in owner of the credential, `share_account`
fails with the not-found reply (and sends nothing) when no Granted row
exists for (credential_id, grantee username); when a Granted row exists
**and the grantee username names a member of the current guild**, it
succeeds with exactly one private-channel send containing the
caller-supplied literal secret strings — for arbitrary supplied strings,
with no check against the credential's stored hashes. -/
theorem c2_disclose_grant_gate (guild : List String) (st : BotState)
    (now actor account_id : Nat) (session : LoginSession) (m : SessionMap)
    (ga : GameAccount) (target gu gp : String)
    (hlog : is_logged_in st.sessions now actor = (some session, m))
    (hacc : st.store.game_accounts.find? (fun a =>
        a.id == account_id && a.uploader_username == session.username) = some ga) :
    (st.store.access_grants.any (fun g =>
        g.account_id == account_id && g.username == target) = false →
      share_account guild st now actor account_id target gu gp =
        ⟨{ st with sessions := m }, [Reply.noGrant], []⟩) ∧
    (st.store.access_grants.any (fun g =>
        g.account_id == account_id && g.username == target) = true →
      guild.contains target = true →
      share_account guild st now actor account_id target gu gp =
        ⟨{ st with sessions := m }, [Reply.sharedViaDM],
          [⟨target, ga.game, session.username, gu, gp⟩]⟩) := by
  constructor
  · intro hng
    simp [share_account, hlog, hacc, hng]
  · intro hg htg
    have htm : target ∈ guild := by simpa using htg
    simp [share_account, hlog, hacc, hg, htm]

/-- Fixture: alice owns account 1 and bob holds a Granted row for it. -/
def c2Store : Store :=
  { emptyStore with
    users := [⟨"alice", hash_secret "a"⟩, ⟨"bob", hash_secret "b"⟩],
    game_accounts := [⟨1, "alice", "wow", hash_secret "gu", hash_secret "gp"⟩],
    access_grants := [⟨1, "bob", "alice"⟩],
    next_request_id := 1 }

/-- Fixture: alice (actor 1) is logged in over `c2Store`. -/
def c2State : BotState := ⟨[(1, ⟨"alice", 10⟩)], c2Store⟩

/-- C2 counterexample: a Granted row exists for (1, "bob") and the owner is
logged in, yet `share_account` does not succeed: with no guild member named
"bob" it replies that the recipient was not found and sends no DM — refuting
the claim that a Granted row alone makes the call succeed with one send. -/
theorem c2_disclose_guild_counterexample :
    share_account [] c2State 0 1 1 "bob" "u" "p" =
      ⟨c2State, [Reply.recipientNotFound], []⟩ := by
  decide

/-- C2 witness: the amended theorem applied concretely: no Granted row for
"carol" gives the not-found reply and no DM; the Granted row for "bob", who
is in the guild, gives exactly one DM with the literal strings "u"/"p". -/
theorem c2_disclose_grant_gate_witness :
    share_account ["bob"] c2State 0 1 1 "carol" "u" "p" =
      ⟨c2State, [Reply.noGrant], []⟩ ∧
    share_account ["bob"] c2State 0 1 1 "bob" "u" "p" =
      ⟨c2State, [Reply.sharedViaDM], [⟨"bob", "wow", "alice", "u", "p"⟩]⟩ :=
  ⟨(c2_disclose_grant_gate ["bob"] c2State 0 1 1 ⟨"alice", 10⟩
      [(1, ⟨"alice", 10⟩)] ⟨1, "alice", "wow", hash_secret "gu", hash_secret "gp"⟩
      "carol" "u" "p" rfl (by decide)).1 (by decide),
    (c2_disclose_grant_gate ["bob"] c2State 0 1 1 ⟨"alice", 10⟩
      [(1, ⟨"alice", 10⟩)] ⟨1, "alice", "wow", hash_secret "gu", hash_secret "gp"⟩
      "bob" "u" "p" rfl (by decide)).2 (by decide) (by decide)⟩

/-- C10: even with the caller owning the credential and a Granted row in
place for the target username, if no member of the current guild bears that
name the command replies that the recipient was not found in this server and
no secret is sent to anyone. -/
theorem c10_share_account_recipient_not_in_guild (guild : List String)
    (st : BotState) (now actor account_id : Nat) (session : LoginSession)
    (m : SessionMap) (ga : GameAccount) (target gu gp : String)
    (hlog : is_logged_in st.sessions now actor = (some session, m))
    (hacc : st.store.game_accounts.find? (fun a =>
        a.id == account_id && a.uploader_username == session.username) = some ga)
    (hg : st.store.access_grants.any (fun g =>
        g.account_id == account_id && g.username == target) = true)
    (hguild : guild.contains target = false) :
    share_account guild st now actor account_id target gu gp =
      ⟨{ st with sessions := m }, [Reply.recipientNotFound], []⟩ := by
  have htm : target ∉ guild := by simpa using hguild
  simp [share_account, hlog, hacc, hg, htm]

/-- C10 witness: bob holds a grant for account 1 but the guild contains only
"carol", so alice's share_account fails with the recipient-not-found reply
and sends no DM. -/
theorem c10_share_account_recipient_not_in_guild_witness :
    share_account ["carol"] c2State 0 1 1 "bob" "u" "p" =
      ⟨c2State, [Reply.recipientNotFound], []⟩ :=
  c10_share_account_recipient_not_in_guild ["carol"] c2State 0 1 1
    ⟨"alice", 10⟩ [(1, ⟨"alice", 10⟩)]
    ⟨1, "alice", "wow", hash_secret "gu", hash_secret "gp"⟩ "bob" "u" "p"
    rfl (by decide) (by decide) (by decide)

/-! ### C3: overlapping approve/reject ids are not rejected -/

/-- Fixture: one pending registration with id 1. -/
def c3Store : Store :=
  { emptyStore with
    pending_users := [⟨1, "carol", hash_secret "c", "9"⟩],
    next_pending_user_id := 2 }

/-- C3 counterexample: resolving with id 1 in both the approve and the
reject set does not fail and does mutate the store — the pending row is
promoted into users and removed from the queue (approve silently wins),
refuting the claimed ValidationError-and-no-mutation behaviour. -/
theorem c3_overlap_counterexample :
    approve_pending_users c3Store [1] [1] ≠ c3Store ∧
    (approve_pending_users c3Store [1] [1]).users =
      [⟨"carol", hash_secret "c"⟩] ∧
    (approve_pending_users c3Store [1] [1]).pending_users = [] := by
  decide

/-- C3 (amended): the console performs no disjointness validation: an id
present in both the approve and the reject list is promoted — its row lands
in users and its pending row is deleted by the approve branch, the reject
delete then being a no-op; no error path exists. -/
theorem c3_overlap_silently_approves (store : Store)
    (approve_ids reject_ids : List Nat) (row : PendingUser)
    (hmem : row ∈ store.pending_users)
    (ha : approve_ids.contains row.id = true)
    (hr : reject_ids.contains row.id = true) :
    (⟨row.username, row.passhash⟩ : UserRow) ∈
      (approve_pending_users store approve_ids reject_ids).users ∧
    ∀ p ∈ (approve_pending_users store approve_ids reject_ids).pending_users,
      p.id ≠ row.id := by
  have hne : store.pending_users.isEmpty = false := by
    simp [List.isEmpty_iff]
    exact List.ne_nil_of_mem hmem
  have hane : approve_ids.isEmpty = false := by
    simp [List.isEmpty_iff]
    exact List.ne_nil_of_mem (by simpa using ha)
  have hrne : reject_ids.isEmpty = false := by
    simp [List.isEmpty_iff]
    exact List.ne_nil_of_mem (by simpa using hr)
  constructor
  · simp only [approve_pending_users, hne, hane, hrne, Bool.false_eq_true,
      if_false]
    apply List.mem_append_right
    exact List.mem_map_of_mem _ (List.mem_filter.2 ⟨hmem, ha⟩)
  · intro p hp
    simp only [approve_pending_users, hne, hane, hrne, Bool.false_eq_true,
      if_false] at hp
    have hp2 := List.mem_filter.1 hp
    have hp3 := List.mem_filter.1 hp2.1
    intro heq
    rw [heq] at hp3
    rw [ha] at hp3
    simpa using hp3.2

/-- C3 witness: the amended theorem applied to the one-row fixture with
approve = reject = the singleton id 1. -/
theorem c3_overlap_silently_approves_witness :
    (⟨"carol", hash_secret "c"⟩ : UserRow) ∈
      (approve_pending_users c3Store [1] [1]).users ∧
    ∀ p ∈ (approve_pending_users c3Store [1] [1]).pending_users, p.id ≠ 1 :=
  c3_overlap_silently_approves c3Store [1] [1]
    ⟨1, "carol", hash_secret "c", "9"⟩ (by decide) (by decide) (by decide)

/-! ### C9: register preserves username uniqueness -/

/-- C9: `register` fails with the duplicate reply — enqueuing nothing — when
the username is already an Identity (users row) or already pending; otherwise
it inserts exactly one PendingRegistration storing the hashed password; and
every `register` call preserves the invariant that no two pending or active
rows share a username. -/
theorem c9_register_unique_usernames (st : BotState) (actor : Nat)
    (username password : String) :
    (st.store.users.any (fun u => u.username == username) = true →
      register st actor username password = (st, [Reply.dupUser])) ∧
    (st.store.users.any (fun u => u.username == username) = false →
      st.store.pending_users.any (fun p => p.username == username) = true →
      register st actor username password = (st, [Reply.dupPending])) ∧
    (st.store.users.any (fun u => u.username == username) = false →
      st.store.pending_users.any (fun p => p.username == username) = false →
      register st actor username password =
        ({ st with store := { st.store with
            pending_users := st.store.pending_users ++
              [⟨st.store.next_pending_user_id, username, hash_secret password,
                toString actor⟩],
            next_pending_user_id := st.store.next_pending_user_id + 1 } },
          [Reply.registrationSubmitted])) ∧
    (distinct_usernames st.store →
      distinct_usernames (register st actor username password).1.store) := by
  have hins : (¬ ∃ x ∈ st.store.users, x.username = username) →
      (¬ ∃ x ∈ st.store.pending_users, x.username = username) →
      register st actor username password =
        ({ st with store := { st.store with
            pending_users := st.store.pending_users ++
              [⟨st.store.next_pending_user_id, username, hash_secret password,
                toString actor⟩],
            next_pending_user_id := st.store.next_pending_user_id + 1 } },
          [Reply.registrationSubmitted]) := by
    intro hne1 hne2
    simp [register, hne1, hne2]
  refine ⟨?_, ?_, ?_, ?_⟩
  · intro h1
    have he1 : ∃ u ∈ st.store.users, u.username = username := by simpa using h1
    simp [register, he1]
  · intro h1 h2
    have hne1 : ¬ ∃ u ∈ st.store.users, u.username = username := by simpa using h1
    have he2 : ∃ p ∈ st.store.pending_users, p.username = username := by
      simpa using h2
    simp [register, hne1, he2]
  · intro h1 h2
    have hne1 : ¬ ∃ u ∈ st.store.users, u.username = username := by simpa using h1
    have hne2 : ¬ ∃ p ∈ st.store.pending_users, p.username = username := by
      simpa using h2
    exact hins hne1 hne2
  · intro hdist
    by_cases h1 : ∃ u ∈ st.store.users, u.username = username
    · simpa [register, h1] using hdist
    · by_cases h2 : ∃ p ∈ st.store.pending_users, p.username = username
      · simpa [register, h1, h2] using hdist
      · rw [hins h1 h2]
        have hn1 : ∀ u ∈ st.store.users, ¬ u.username = username := by
          intro u hu hc
          exact h1 ⟨u, hu, hc⟩
        have hn2 : ∀ p ∈ st.store.pending_users, ¬ p.username = username := by
          intro p hp hc
          exact h2 ⟨p, hp, hc⟩
        unfold distinct_usernames at hdist ⊢
        simp only [List.map_append, List.map_cons, List.map_nil]
        rw [← List.append_assoc]
        rw [List.nodup_append]
        refine ⟨hdist, List.nodup_singleton _, ?_⟩
        intro x hx hxu
        have hxu2 : x = username := by simpa using hxu
        subst hxu2
        rcases List.mem_append.1 hx with hxa | hxb
        · obtain ⟨u, hu, hu2⟩ := List.mem_map.1 hxa
          exact hn1 u hu hu2
        · obtain ⟨p, hp, hp2⟩ := List.mem_map.1 hxb
          exact hn2 p hp hp2

/-- Fixture: "dave" is already an approved user. -/
def c9UserStore : Store := { emptyStore with users := [⟨"dave", hash_secret "d"⟩] }

/-- Fixture: "erin" already has a pending registration. -/
def c9PendStore : Store :=
  { emptyStore with
    pending_users := [⟨0, "erin", hash_secret "e", "7"⟩],
    next_pending_user_id := 1 }

/-- C9 witness: the theorem applied concretely to a taken username, a pending
username, a fresh username, and the invariant-preservation implication. -/
theorem c9_register_unique_usernames_witness :
    register ⟨[], c9UserStore⟩ 5 "dave" "pw" =
      (⟨[], c9UserStore⟩, [Reply.dupUser]) ∧
    register ⟨[], c9PendStore⟩ 5 "erin" "pw" =
      (⟨[], c9PendStore⟩, [Reply.dupPending]) ∧
    register ⟨[], emptyStore⟩ 5 "fred" "pw" =
      ({ (⟨[], emptyStore⟩ : BotState) with store := { emptyStore with
          pending_users := [⟨0, "fred", hash_secret "pw", toString (5 : Nat)⟩],
          next_pending_user_id := 1 } },
        [Reply.registrationSubmitted]) ∧
    distinct_usernames (register ⟨[], c9UserStore⟩ 5 "dave" "pw").1.store :=
  ⟨(c9_register_unique_usernames ⟨[], c9UserStore⟩ 5 "dave" "pw").1 (by decide),
    (c9_register_unique_usernames ⟨[], c9PendStore⟩ 5 "erin" "pw").2.1
      (by decide) (by decide),
    (c9_register_unique_usernames ⟨[], emptyStore⟩ 5 "fred" "pw").2.2.1
      (by decide) (by decide),
    (c9_register_unique_usernames ⟨[], c9UserStore⟩ 5 "dave" "pw").2.2.2
      (by unfold distinct_usernames; decide)⟩
